import Mathlib

/-!
Shallow embedding of the agent/commission/payout service
(Ecom-micro-template/service-agent).

Monetary amounts and rates are modelled as exact rationals; timestamps
are abstract and passed explicitly to every mutating operation (the Go
code reads the wall clock there); database reads become explicit inputs.
Go methods that mutate an entity in place become functions returning the
error outcome together with the post-state.
-/

/-! ## Shared value objects (internal/domain/shared) -/

/-- Commission status, from payout_status.go (second part of the file). -/
inductive CommissionStatus where
  | pending
  | approved
  | paid
  | cancelled
deriving DecidableEq, Repr

/-- Allowed commission status transitions (validCommissionTransitions). -/
def validCommissionTransitions : CommissionStatus → List CommissionStatus
  | .pending => [.approved, .cancelled]
  | .approved => [.paid, .cancelled]
  | .paid => []
  | .cancelled => []

/-- CommissionStatus.CanTransitionTo from the source. -/
def CommissionStatus.canTransitionTo (s target : CommissionStatus) : Bool :=
  (validCommissionTransitions s).contains target

/-- CommissionStatus.IsTerminal from the source. -/
def CommissionStatus.isTerminal (s : CommissionStatus) : Bool :=
  s == .paid || s == .cancelled

/-- Payout status, from payout_status.go. -/
inductive PayoutStatus where
  | pending
  | processing
  | completed
  | failed
  | cancelled
deriving DecidableEq, Repr

/-- Allowed payout status transitions (validPayoutTransitions). -/
def validPayoutTransitions : PayoutStatus → List PayoutStatus
  | .pending => [.processing, .cancelled]
  | .processing => [.completed, .failed]
  | .completed => []
  | .failed => [.pending]
  | .cancelled => []

/-- PayoutStatus.CanTransitionTo from the source. -/
def PayoutStatus.canTransitionTo (s target : PayoutStatus) : Bool :=
  (validPayoutTransitions s).contains target

/-- PayoutStatus.IsTerminal from the source. -/
def PayoutStatus.isTerminal (s : PayoutStatus) : Bool :=
  s == .completed || s == .cancelled

/-- PayoutStatus.CanRetry from the source. -/
def PayoutStatus.canRetry (s : PayoutStatus) : Bool :=
  s == .failed

/-- CommissionRate value object (commission_rate.go): a validated
percentage stored as a number in the range 0 to 100. -/
structure CommissionRate where
  value : ℚ
deriving DecidableEq, Repr

/-- Error returned by NewCommissionRate for out-of-range input. -/
inductive RateError where
  | invalidRange
deriving DecidableEq, Repr

/-- NewCommissionRate from commission_rate.go. -/
def NewCommissionRate (rate : ℚ) : Except RateError CommissionRate :=
  if rate < 0 ∨ rate > 100 then .error .invalidRange
  else .ok ⟨rate⟩

/-- DefaultCommissionRate from commission_rate.go (10 percent). -/
def defaultCommissionRate : CommissionRate := ⟨10⟩

/-- CommissionRate.Percentage from the source. -/
def CommissionRate.percentage (r : CommissionRate) : ℚ := r.value / 100

/-- CommissionRate.CalculateCommission from the source. -/
def CommissionRate.calculateCommission (r : CommissionRate) (amount : ℚ) : ℚ :=
  amount * r.percentage

/-- CommissionRate.AddPercentage from the source (bonus is a fraction,
converted to percentage points, capped at 100). -/
def CommissionRate.addPercentage (r : CommissionRate) (bonus : ℚ) : CommissionRate :=
  let newValue := r.value + bonus * 100
  if newValue > 100 then ⟨100⟩ else ⟨newValue⟩

/-- Agent tier (part of the shared package). -/
inductive AgentTier where
  | bronze
  | silver
  | gold
  | platinum
deriving DecidableEq, Repr

/-- AgentTier.BonusPercentage from the source: a fractional bonus
(0, 0.01, 0.02, 0.03). -/
def AgentTier.bonusPercentage : AgentTier → ℚ
  | .bronze => 0
  | .silver => 1 / 100
  | .gold => 2 / 100
  | .platinum => 3 / 100

/-- ParseAgentTier from the source. -/
def ParseAgentTier (s : String) : Except Unit AgentTier :=
  if s = "bronze" then .ok .bronze
  else if s = "silver" then .ok .silver
  else if s = "gold" then .ok .gold
  else if s = "platinum" then .ok .platinum
  else .error ()

/-- Agent status (shared package). -/
inductive AgentStatus where
  | active
  | inactive
  | suspended
  | pending
deriving DecidableEq, Repr

/-- ParseAgentStatus from the source. -/
def ParseAgentStatus (s : String) : Except Unit AgentStatus :=
  if s = "active" then .ok .active
  else if s = "inactive" then .ok .inactive
  else if s = "suspended" then .ok .suspended
  else if s = "pending" then .ok .pending
  else .error ()

/-! ## Commission entity (internal/domain/commission/commission.go) -/

/-- Domain events collected on the Commission entity (events file of the
commission package). -/
inductive CommissionEvent where
  | created (commissionID agentID : Nat) (orderID : String) (amount : ℚ) (occurredAt : Nat)
  | approvedEvent (commissionID agentID : Nat) (amount : ℚ) (occurredAt : Nat)
  | paidEvent (commissionID agentID : Nat) (amount : ℚ) (occurredAt : Nat)
deriving DecidableEq, Repr

/-- Commission entity fields, from commission.go. -/
structure Commission where
  id : Nat
  agentID : Nat
  orderID : String
  orderTotal : ℚ
  rate : CommissionRate
  amount : ℚ
  status : CommissionStatus
  createdAt : Nat
  updatedAt : Nat
  events : List CommissionEvent
deriving DecidableEq, Repr

/-- CommissionParams from commission.go. -/
structure CommissionParams where
  id : Nat
  agentID : Nat
  orderID : String
  orderTotal : ℚ
  rate : ℚ
  amount : ℚ
deriving DecidableEq, Repr

/-- Errors of the commission package (commission.go). -/
inductive CommissionError where
  | agentIDRequired
  | orderIDRequired
  | orderTotalNotPositive
  | invalidRate
  | invalidCommission
  | notApproved
  | alreadyPaid
deriving DecidableEq, Repr

/-- NewCommission from commission.go: validates input, derives the amount
from the rate when no positive amount is supplied, and starts pending. -/
def NewCommission (params : CommissionParams) (now : Nat) : Except CommissionError Commission :=
  if params.agentID = 0 then .error .agentIDRequired
  else if params.orderID = "" then .error .orderIDRequired
  else if params.orderTotal ≤ 0 then .error .orderTotalNotPositive
  else
    match NewCommissionRate params.rate with
    | .error _ => .error .invalidRate
    | .ok rate =>
      let amount := if params.amount ≤ 0 then rate.calculateCommission params.orderTotal else params.amount
      .ok
        { id := params.id
          agentID := params.agentID
          orderID := params.orderID
          orderTotal := params.orderTotal
          rate := rate
          amount := amount
          status := .pending
          createdAt := now
          updatedAt := now
          events := [.created params.id params.agentID params.orderID amount now] }

/-- Commission.Approve from commission.go: the error outcome together
with the post-state of the entity. -/
def Commission.approve (c : Commission) (now : Nat) : Except CommissionError Unit × Commission :=
  if c.status.canTransitionTo .approved then
    (.ok (), { c with
      status := .approved
      updatedAt := now
      events := c.events ++ [.approvedEvent c.id c.agentID c.amount now] })
  else (.error .invalidCommission, c)

/-- Commission.MarkAsPaid from commission.go. -/
def Commission.markAsPaid (c : Commission) (now : Nat) : Except CommissionError Unit × Commission :=
  if c.status.canTransitionTo .paid then
    (.ok (), { c with
      status := .paid
      updatedAt := now
      events := c.events ++ [.paidEvent c.id c.agentID c.amount now] })
  else (.error .notApproved, c)

/-- Commission.Cancel from commission.go: guarded by IsTerminal only, and
the reason argument is not used by the body. -/
def Commission.cancel (c : Commission) (reason : String) (now : Nat) :
    Except CommissionError Unit × Commission :=
  if c.status.isTerminal then (.error .alreadyPaid, c)
  else (.ok (), { c with status := .cancelled, updatedAt := now })

/-! ## Payout aggregate (internal/domain/payout) -/

/-- PayoutItem value object. -/
structure PayoutItem where
  commissionID : Nat
  orderID : String
  amount : ℚ
deriving DecidableEq, Repr

/-- Payout aggregate fields, from payout.go. -/
structure Payout where
  id : Nat
  agentID : Nat
  amount : ℚ
  period : String
  items : List PayoutItem
  status : PayoutStatus
  paidAt : Option Nat
  createdAt : Nat
  updatedAt : Nat
deriving DecidableEq, Repr

/-- PayoutParams from payout.go. -/
structure PayoutParams where
  id : Nat
  agentID : Nat
  period : String
  items : List PayoutItem
deriving DecidableEq, Repr

/-- Errors of the payout package (payout.go). -/
inductive PayoutError where
  | agentIDRequired
  | periodRequired
  | noCommissions
  | payoutCompleted
  | invalidPayout
deriving DecidableEq, Repr

/-- NewPayout from payout.go: validates agent ID, period and a non-empty
item list, then sums the item amounts. -/
def NewPayout (params : PayoutParams) (now : Nat) : Except PayoutError Payout :=
  if params.agentID = 0 then .error .agentIDRequired
  else if params.period = "" then .error .periodRequired
  else if params.items.isEmpty then .error .noCommissions
  else
    let amount := params.items.foldl (fun acc item => acc + item.amount) 0
    .ok
      { id := params.id
        agentID := params.agentID
        amount := amount
        period := params.period
        items := params.items
        status := .pending
        paidAt := none
        createdAt := now
        updatedAt := now }

/-- Payout.Process from payout.go. -/
def Payout.process (p : Payout) (now : Nat) : Except PayoutError Unit × Payout :=
  if p.status.canTransitionTo .processing then
    (.ok (), { p with status := .processing, updatedAt := now })
  else (.error .payoutCompleted, p)

/-- Payout.Complete from payout.go: stamps paidAt. -/
def Payout.complete (p : Payout) (now : Nat) : Except PayoutError Unit × Payout :=
  if p.status.canTransitionTo .completed then
    (.ok (), { p with status := .completed, paidAt := some now, updatedAt := now })
  else (.error .payoutCompleted, p)

/-- Payout.Fail from payout.go: the reason argument is not used by the body. -/
def Payout.fail (p : Payout) (reason : String) (now : Nat) : Except PayoutError Unit × Payout :=
  if p.status.canTransitionTo .failed then
    (.ok (), { p with status := .failed, updatedAt := now })
  else (.error .payoutCompleted, p)

/-- Payout.Retry from payout.go: guarded by CanRetry. -/
def Payout.retry (p : Payout) (now : Nat) : Except PayoutError Unit × Payout :=
  if p.status.canRetry then
    (.ok (), { p with status := .pending, updatedAt := now })
  else (.error .invalidPayout, p)

/-- Payout.Cancel from payout.go: guarded by IsTerminal only, not by the
transition table. -/
def Payout.cancel (p : Payout) (now : Nat) : Except PayoutError Unit × Payout :=
  if p.status.isTerminal then (.error .payoutCompleted, p)
  else (.ok (), { p with status := .cancelled, updatedAt := now })

/-! ## Agent aggregate (internal/domain/agent) -/

/-- Domain events collected on the Agent aggregate. -/
inductive AgentEvent where
  | created (agentID : Nat) (code name : String) (occurredAt : Nat)
  | statusChanged (agentID : Nat) (newStatus : String) (occurredAt : Nat)
  | promoted (agentID : Nat) (newTier : String) (occurredAt : Nat)
deriving DecidableEq, Repr

/-- Agent aggregate fields. -/
structure Agent where
  id : Nat
  code : String
  name : String
  email : String
  phone : String
  commissionRate : CommissionRate
  tier : AgentTier
  status : AgentStatus
  totalEarned : ℚ
  teamID : Option Nat
  createdAt : Nat
  updatedAt : Nat
  events : List AgentEvent
deriving DecidableEq, Repr

/-- AgentParams for NewAgent. -/
structure AgentParams where
  id : Nat
  code : String
  name : String
  email : String
  phone : String
  commissionRate : ℚ
  tier : String
  status : String
  teamID : Option Nat
deriving DecidableEq, Repr

/-- Errors of NewAgent. -/
inductive AgentError where
  | nameRequired
  | emailRequired
deriving DecidableEq, Repr

/-- Go fmt.Sprintf of the AGT agent code, padding the ID to four digits. -/
def formatAgentCode (n : Nat) : String :=
  "AGT" ++ (if n < 10 then "000" else if n < 100 then "00" else if n < 1000 then "0" else "")
    ++ toString n

/-- NewAgent from the agent package: requires name and email; a positive
rate is validated but a failed validation is silently ignored in favour
of the default rate; tier and status strings fall back to bronze/active
when empty or unparsable. -/
def NewAgent (params : AgentParams) (now : Nat) : Except AgentError Agent :=
  if params.name = "" then .error .nameRequired
  else if params.email = "" then .error .emailRequired
  else
    let code := if params.code = "" then formatAgentCode params.id else params.code
    let rate :=
      if params.commissionRate > 0 then
        match NewCommissionRate params.commissionRate with
        | .ok r => r
        | .error _ => defaultCommissionRate
      else defaultCommissionRate
    let tier :=
      if params.tier = "" then AgentTier.bronze
      else
        match ParseAgentTier params.tier with
        | .ok t => t
        | .error _ => AgentTier.bronze
    let status :=
      if params.status = "" then AgentStatus.active
      else
        match ParseAgentStatus params.status with
        | .ok s => s
        | .error _ => AgentStatus.active
    .ok
      { id := params.id
        code := code
        name := params.name
        email := params.email
        phone := params.phone
        commissionRate := rate
        tier := tier
        status := status
        totalEarned := 0
        teamID := params.teamID
        createdAt := now
        updatedAt := now
        events := [.created params.id code params.name now] }

/-- Agent.SetCommissionRate: validates through NewCommissionRate and
leaves the agent unchanged on error. -/
def Agent.setCommissionRate (a : Agent) (rate : ℚ) (now : Nat) :
    Except RateError Unit × Agent :=
  match NewCommissionRate rate with
  | .error e => (.error e, a)
  | .ok r => (.ok (), { a with commissionRate := r, updatedAt := now })

/-! ## Commission calculator service (internal/services/commission_calculator.go) -/

/-- CommissionTier row of the sales.commission_tiers table. -/
structure CommissionTier where
  minAmount : ℚ
  maxAmount : ℚ
  rate : ℚ
deriving DecidableEq, Repr

/-- The tier containment test used by getTierForAmount: amount at least
minAmount, and either maxAmount is zero (no upper limit) or amount at
most maxAmount. -/
def tierContains (tier : CommissionTier) (amount : ℚ) : Bool :=
  decide (tier.minAmount ≤ amount) && (decide (tier.maxAmount = 0) || decide (amount ≤ tier.maxAmount))

/-- getTierForAmount from the source: the first tier of the list whose
range contains the amount, in list order. -/
def getTierForAmount (tiers : List CommissionTier) (amount : ℚ) : Option CommissionTier :=
  tiers.find? (fun tier => tierContains tier amount)

/-- The agent row read by getAgentCommissionRate, together with the rows
of the commission-tiers and teams tables that the function queries. -/
structure AgentRow where
  baseRate : ℚ
  tierEnabled : Bool
  teamBoost : Option ℚ
  isActive : Bool
  tiers : List CommissionTier
deriving DecidableEq, Repr

/-- AgentCommissionConfig from the source. -/
structure AgentCommissionConfig where
  baseRate : ℚ
  tierEnabled : Bool
  tierRates : List CommissionTier
deriving DecidableEq, Repr

/-- Error outcomes of the calculator service. -/
inductive CalcError where
  | agentNotActive
deriving DecidableEq, Repr

/-- getAgentCommissionRate from the source: refuses inactive agents,
loads tier rows only when tiering is enabled, and adds a positive team
boost onto the base rate. -/
def getAgentCommissionRate (agent : AgentRow) : Except CalcError AgentCommissionConfig :=
  if !agent.isActive then .error .agentNotActive
  else
    let config : AgentCommissionConfig :=
      { baseRate := agent.baseRate
        tierEnabled := agent.tierEnabled
        tierRates := if agent.tierEnabled then agent.tiers else [] }
    match agent.teamBoost with
    | some boost =>
      if boost > 0 then .ok { config with baseRate := config.baseRate + boost }
      else .ok config
    | none => .ok config

/-- A row of the product or category bonus-rate tables. -/
structure BonusRateRow where
  rowID : String
  rowName : String
  bonusRate : ℚ
  isActive : Bool
deriving DecidableEq, Repr

/-- A breakdown line of the calculation result. -/
structure BreakdownItem where
  itemType : String
  itemID : String
  itemName : String
  amount : ℚ
  rate : ℚ
deriving DecidableEq, Repr

/-- The DB filter of calculateProductCommissions and
calculateCategoryCommissions: rows whose ID is among the requested IDs
and which are active. -/
def activeRowsFor (table : List BonusRateRow) (ids : List String) : List BonusRateRow :=
  table.filter (fun row => ids.contains row.rowID && row.isActive)

/-- Shared body of calculateProductCommissions and
calculateCategoryCommissions: per matching active row, a bonus of
orderSubtotal times the bonus rate over 100, summed, with one breakdown
line per row. -/
def calculateBonusCommissions (itemType : String) (table : List BonusRateRow)
    (ids : List String) (orderSubtotal : ℚ) : ℚ × List BreakdownItem :=
  (activeRowsFor table ids).foldl
    (fun acc row =>
      let bonus := orderSubtotal * (row.bonusRate / 100)
      (acc.1 + bonus,
       acc.2 ++ [{ itemType := itemType, itemID := row.rowID, itemName := row.rowName,
                   amount := bonus, rate := row.bonusRate }]))
    (0, [])

/-- CommissionCalculationRequest fields used by the calculation. -/
structure CommissionCalculationRequest where
  orderSubtotal : ℚ
  productIDs : List String
  categoryIDs : List String
deriving DecidableEq, Repr

/-- CommissionCalculationResult fields produced by the calculation. -/
structure CommissionCalculationResult where
  commissionRate : ℚ
  commissionAmount : ℚ
  basedOnAmount : ℚ
  tierApplied : Option CommissionTier
  breakdown : List BreakdownItem
deriving DecidableEq, Repr

/-- Breakdown item type label of the product bonus lines. -/
def productItemType : String := "product"

/-- Breakdown item type label of the category bonus lines. -/
def categoryItemType : String := "category"

/-- CalculateCommission from the source, with the database reads passed
in as inputs: the agent row, the product bonus table and the category
bonus table. -/
def CalculateCommission (agent : AgentRow) (productTable categoryTable : List BonusRateRow)
    (req : CommissionCalculationRequest) : Except CalcError CommissionCalculationResult := do
  let config ← getAgentCommissionRate agent
  let baseAmount := req.orderSubtotal
  let tier := getTierForAmount config.tierRates baseAmount
  let commissionRate :=
    match tier with
    | some t => t.rate
    | none => config.baseRate
  let commissionAmount := baseAmount * (commissionRate / 100)
  let (productBonus, productBreakdown) :=
    if req.productIDs.isEmpty then (0, [])
    else calculateBonusCommissions productItemType productTable req.productIDs req.orderSubtotal
  let (categoryBonus, categoryBreakdown) :=
    if req.categoryIDs.isEmpty then (0, [])
    else calculateBonusCommissions categoryItemType categoryTable req.categoryIDs req.orderSubtotal
  return {
      commissionRate := commissionRate
      commissionAmount := commissionAmount + productBonus + categoryBonus
      basedOnAmount := baseAmount
      tierApplied := tier
      breakdown := productBreakdown ++ categoryBreakdown }

/-! ## Monthly performance date arithmetic (GetAgentPerformance)

The handler walks i from 11 down to 0 and takes the calendar month of
time.Now().AddDate(0, -i, 0). Go AddDate feeds year, month-i and the
unchanged day of month back through time.Date, which normalizes an
out-of-range month into the year and rolls an overflowing day of month
forward into the following month. Only the resulting calendar month
matters here, so the model computes exactly that. -/

/-- Gregorian leap year rule. -/
def isLeapYear (y : Int) : Bool :=
  y % 4 == 0 && (y % 100 != 0 || y % 400 == 0)

/-- Number of days of a month (month given 1 to 12). -/
def daysInMonth (y : Int) (m : Nat) : Nat :=
  if m = 2 then (if isLeapYear y then 29 else 28)
  else if m = 4 ∨ m = 6 ∨ m = 9 ∨ m = 11 then 30
  else 31

/-- Day-overflow normalization of time.Date: roll an overflowing day of
month forward into the following months. The fuel bounds the recursion;
each step removes at least 28 days, so fuel equal to the day suffices. -/
def normalizeDay (fuel : Nat) (y : Int) (m : Nat) (d : Nat) : Int × Nat × Nat :=
  match fuel with
  | 0 => (y, m, d)
  | fuel + 1 =>
    if d ≤ daysInMonth y m then (y, m, d)
    else if m = 12 then normalizeDay fuel (y + 1) 1 (d - daysInMonth y m)
    else normalizeDay fuel y (m + 1) (d - daysInMonth y m)

/-- The normalized date of time.Date(y, m, d, ...) for a possibly
out-of-range month m (as an integer) and a day d of at least 1. -/
def goDate (y : Int) (m : Int) (d : Nat) : Int × Nat × Nat :=
  let mm : Int := m - 1
  let y1 := y + mm.ediv 12
  let m1 := (mm.emod 12).toNat + 1
  normalizeDay d y1 m1 d

/-- Calendar month (year, month) of a normalized date. -/
def monthOf (x : Int × Nat × Nat) : Int × Nat :=
  (x.1, x.2.1)

/-- The twelve calendar months visited by the GetAgentPerformance loop
for a current date (y, m, d): entry k is the month of
AddDate(0, -(11-k), 0), so the list ends at the current month. -/
def performanceMonths (y : Int) (m : Nat) (d : Nat) : List (Int × Nat) :=
  (List.range 12).map (fun k => monthOf (goDate y ((m : Int) - (11 - (k : Int))) d))

/-- Modelled from the spec: the trailing 12 calendar months ending at
the current month, oldest first, by pure month arithmetic. -/
def trailingMonths (y : Int) (m : Nat) : List (Int × Nat) :=
  (List.range 12).map (fun k =>
    let mm : Int := (m : Int) - (11 - (k : Int)) - 1
    (y + mm.ediv 12, (mm.emod 12).toNat + 1))

/-! ## Spec-side definitions for comparison with the calculator -/

/-- Definition following the words of claim C1: effective rate equals
the matched tier rate (else the agent base rate) plus the team boost
plus the tier-ordinal bonus in percentage points. -/
def specClaimedAppliedRate (tierMatch : Option CommissionTier) (baseRate teamBoost : ℚ)
    (tier : AgentTier) : ℚ :=
  (match tierMatch with
   | some t => t.rate
   | none => baseRate) + teamBoost + tier.bonusPercentage * 100

/-- Definition following the words of claim C2: the first tier whose
half-open range from minAmount inclusive to maxAmount exclusive contains
the amount, an unbounded maxAmount (encoded 0) imposing no upper limit. -/
def specHalfOpenTierSelect (tiers : List CommissionTier) (amount : ℚ) : Option CommissionTier :=
  tiers.find? (fun tier =>
    decide (tier.minAmount ≤ amount) &&
      (decide (tier.maxAmount = 0) || decide (amount < tier.maxAmount)))

/-- The team boost contribution that getAgentCommissionRate adds onto
the base rate: the boost when present and positive, zero otherwise. -/
def teamBoostContribution (agent : AgentRow) : ℚ :=
  match agent.teamBoost with
  | some boost => if boost > 0 then boost else 0
  | none => 0

/-- The tier list that getAgentCommissionRate actually loads. -/
def loadedTierRates (agent : AgentRow) : List CommissionTier :=
  if agent.tierEnabled then agent.tiers else []

/-- One lifecycle action on a Commission, with its reason where the Go
method takes one. -/
inductive CommissionAction where
  | approveAction
  | markAsPaidAction
  | cancelAction (reason : String)
deriving DecidableEq, Repr

/-- Post-state of one lifecycle action (the error outcome dropped). -/
def Commission.applyAction (c : Commission) (act : CommissionAction) (now : Nat) : Commission :=
  match act with
  | .approveAction => (c.approve now).2
  | .markAsPaidAction => (c.markAsPaid now).2
  | .cancelAction reason => (c.cancel reason now).2

/-- Post-state after a sequence of lifecycle actions, each with its own
timestamp. -/
def Commission.applyActions (c : Commission) (acts : List (CommissionAction × Nat)) : Commission :=
  acts.foldl (fun c act => c.applyAction act.1 act.2) c

/-! ## Concrete example entities used by witnesses and counterexamples -/

/-- The volume tiers of end-to-end scenario 2 of the spec. -/
def exampleTiers : List CommissionTier := [⟨0, 1000, 5⟩, ⟨1000, 5000, 15 / 2⟩, ⟨5000, 0, 10⟩]

/-- An active tier-enabled agent row with the example tiers and no team. -/
def tieredAgentExample : AgentRow :=
  { baseRate := 5, tierEnabled := true, teamBoost := none, isActive := true, tiers := exampleTiers }

/-- An active agent row with base rate 5, a team boost of 2 and no
volume tiers. -/
def boostAgentExample : AgentRow :=
  { baseRate := 5, tierEnabled := false, teamBoost := some 2, isActive := true, tiers := [] }

/-- A payout with one item, parameterized by its status. -/
def examplePayout (s : PayoutStatus) : Payout :=
  { id := 1, agentID := 7, amount := 100, period := "2024-01", items := [⟨1, "ord-1", 100⟩],
    status := s, paidAt := none, createdAt := 0, updatedAt := 0 }

/-- A pending commission used as a concrete instance. -/
def exampleCommission : Commission :=
  { id := 1, agentID := 7, orderID := "ord-1", orderTotal := 1000, rate := ⟨5⟩, amount := 50,
    status := .pending, createdAt := 0, updatedAt := 0, events := [] }

/-- An active agent entity used as a concrete instance. -/
def exampleAgent : Agent :=
  { id := 1, code := "AGT0001", name := "A", email := "a@b.c", phone := "",
    commissionRate := ⟨5⟩, tier := .bronze, status := .active, totalEarned := 0,
    teamID := none, createdAt := 0, updatedAt := 0, events := [] }

/-! ## Claim theorems -/

/-- C8: NewCommissionRate succeeds with the given value exactly when the
input lies in the closed interval from 0 to 100, fails with the
invalid-range error exactly when it does not, and every successful
construction stores exactly the input value. -/
theorem newCommissionRate_range (v : ℚ) :
    ((NewCommissionRate v = .ok ⟨v⟩) ↔ (0 ≤ v ∧ v ≤ 100)) ∧
    ((NewCommissionRate v = .error .invalidRange) ↔ (v < 0 ∨ 100 < v)) ∧
    (∀ r : CommissionRate, NewCommissionRate v = .ok r → r.value = v) := by
  unfold NewCommissionRate
  by_cases h : v < 0 ∨ v > 100
  · rw [if_pos h]
    refine ⟨⟨fun hx => absurd hx (by simp), fun hx => ?_⟩,
      ⟨fun _ => h, fun _ => rfl⟩, fun r hr => absurd hr (by simp)⟩
    rcases h with h | h
    · exact absurd hx.1 (not_le.mpr h)
    · exact absurd hx.2 (not_le.mpr h)
  · rw [if_neg h]
    push_neg at h
    refine ⟨⟨fun _ => ⟨h.1, h.2⟩, fun _ => rfl⟩,
      ⟨fun hx => absurd hx (by simp), fun hx => ?_⟩, fun r hr => ?_⟩
    · rcases hx with hx | hx
      · exact absurd hx (not_lt.mpr h.1)
      · exact absurd hx (not_lt.mpr h.2)
    · cases hr
      rfl

/-- Witness for C8 at the concrete inputs 50 and 150. -/
theorem newCommissionRate_range_witness :
    NewCommissionRate 50 = .ok ⟨50⟩ ∧ NewCommissionRate 150 = .error .invalidRange :=
  ⟨((newCommissionRate_range 50).1).mpr (by norm_num),
   ((newCommissionRate_range 150).2.1).mpr (by norm_num)⟩

/-- C10: Commission.Cancel and Payout.Fail ignore their reason argument:
two calls with different reasons return the same error outcome and the
same post-state, and no field of either entity records the reason. -/
theorem cancel_fail_reason_irrelevant :
    ∀ (c : Commission) (p : Payout) (r1 r2 : String) (now : Nat),
      c.cancel r1 now = c.cancel r2 now ∧ p.fail r1 now = p.fail r2 now := by
  intro c p r1 r2 now
  exact ⟨rfl, rfl⟩

/-- C4: Commission.Approve succeeds exactly from pending,
Commission.MarkAsPaid exactly from approved, Commission.Cancel fails
exactly from paid or cancelled, and every failing call leaves the status
unchanged while every successful call moves to the target status. -/
theorem commission_transition_guards :
    ∀ (c : Commission) (reason : String) (now : Nat),
      ((c.approve now).1.isOk = (c.status == .pending)) ∧
      ((c.approve now).2.status = if c.status = .pending then .approved else c.status) ∧
      ((c.markAsPaid now).1.isOk = (c.status == .approved)) ∧
      ((c.markAsPaid now).2.status = if c.status = .approved then .paid else c.status) ∧
      ((c.cancel reason now).1.isOk = !(c.status == .paid || c.status == .cancelled)) ∧
      ((c.cancel reason now).2.status =
        if c.status = .paid ∨ c.status = .cancelled then c.status else .cancelled) := by
  intro c reason now
  cases h : c.status <;>
    simp [Commission.approve, Commission.markAsPaid, Commission.cancel,
      CommissionStatus.canTransitionTo, CommissionStatus.isTerminal,
      validCommissionTransitions, h, Except.isOk] <;> decide

/-- C3 counterexample: Payout.Cancel on a processing payout succeeds and
moves the status to cancelled even though the transition table does not
allow processing to cancelled. -/
theorem payout_cancel_outside_table_cex :
    ((examplePayout .processing).cancel 5).1 = .ok () ∧
    ((examplePayout .processing).cancel 5).2.status = .cancelled ∧
    PayoutStatus.canTransitionTo .processing .cancelled = false := by
  refine ⟨rfl, rfl, rfl⟩

/-- C3 amended: Process, Complete, Fail and Retry succeed exactly when
the transition table allows their target status (processing, completed,
failed, pending respectively) from the current status, and leave the
status unchanged on failure; Cancel however is guarded only by
terminality, so it succeeds from every non-terminal status, including
processing and failed whose transitions to cancelled are outside the
table. -/
theorem payout_transition_guards :
    ∀ (p : Payout) (reason : String) (now : Nat),
      ((p.process now).1.isOk = p.status.canTransitionTo .processing) ∧
      ((p.process now).2.status =
        if p.status.canTransitionTo .processing then .processing else p.status) ∧
      ((p.complete now).1.isOk = p.status.canTransitionTo .completed) ∧
      ((p.complete now).2.status =
        if p.status.canTransitionTo .completed then .completed else p.status) ∧
      ((p.fail reason now).1.isOk = p.status.canTransitionTo .failed) ∧
      ((p.fail reason now).2.status =
        if p.status.canTransitionTo .failed then .failed else p.status) ∧
      ((p.retry now).1.isOk = p.status.canTransitionTo .pending) ∧
      ((p.retry now).2.status =
        if p.status.canTransitionTo .pending then .pending else p.status) ∧
      ((p.cancel now).1.isOk = !p.status.isTerminal) ∧
      ((p.cancel now).2.status = if p.status.isTerminal then p.status else .cancelled) := by
  intro p reason now
  cases h : p.status <;>
    simp [Payout.process, Payout.complete, Payout.fail, Payout.retry, Payout.cancel,
      PayoutStatus.canTransitionTo, PayoutStatus.canRetry, PayoutStatus.isTerminal,
      validPayoutTransitions, h, Except.isOk] <;> decide

/-- C2 counterexample: with the example tiers and a subtotal of exactly
1000, the code selects the first tier (closed upper bound), while the
half-open reading of the claim selects the second tier. -/
theorem tier_selection_half_open_cex :
    getTierForAmount exampleTiers 1000 = some ⟨0, 1000, 5⟩ ∧
    specHalfOpenTierSelect exampleTiers 1000 = some ⟨1000, 5000, 15 / 2⟩ ∧
    (⟨0, 1000, 5⟩ : CommissionTier) ≠ ⟨1000, 5000, 15 / 2⟩ := by
  refine ⟨rfl, rfl, by simp⟩

/-- C2 amended: tier selection walks the list in order and returns the
first tier whose closed range from minAmount to maxAmount contains the
subtotal, a maxAmount of 0 imposing no upper limit; every returned tier
belongs to the list and contains the subtotal; and on the example tiers
with subtotal 3500 the second tier is selected and the base commission
is 262.50. -/
theorem tier_selection_closed_first_match :
    (∀ amount : ℚ, getTierForAmount [] amount = none) ∧
    (∀ (t : CommissionTier) (ts : List CommissionTier) (amount : ℚ),
      getTierForAmount (t :: ts) amount =
        if t.minAmount ≤ amount ∧ (t.maxAmount = 0 ∨ amount ≤ t.maxAmount) then some t
        else getTierForAmount ts amount) ∧
    (∀ (tiers : List CommissionTier) (amount : ℚ) (t : CommissionTier),
      getTierForAmount tiers amount = some t →
        t ∈ tiers ∧ t.minAmount ≤ amount ∧ (t.maxAmount = 0 ∨ amount ≤ t.maxAmount)) ∧
    (CalculateCommission tieredAgentExample [] []
        { orderSubtotal := 3500, productIDs := [], categoryIDs := [] } =
      .ok { commissionRate := 15 / 2, commissionAmount := 525 / 2, basedOnAmount := 3500,
            tierApplied := some ⟨1000, 5000, 15 / 2⟩, breakdown := [] }) := by
  refine ⟨fun amount => rfl, fun t ts amount => ?_, fun tiers amount t h => ?_, ?_⟩
  · by_cases hc : t.minAmount ≤ amount ∧ (t.maxAmount = 0 ∨ amount ≤ t.maxAmount)
    · rw [if_pos hc]
      simp [getTierForAmount, List.find?_cons, tierContains, hc.1, hc.2]
    · rw [if_neg hc]
      have hb : tierContains t amount = false := by
        simp only [tierContains]
        rw [Classical.not_and_iff_or_not_not] at hc
        rcases hc with hc | hc
        · simp [hc]
        · rw [not_or] at hc
          simp [hc.1, hc.2]
      simp [getTierForAmount, List.find?_cons, hb]
  · refine ⟨List.mem_of_find?_eq_some h, ?_⟩
    have hp := List.find?_some h
    simp only [tierContains, Bool.and_eq_true, Bool.or_eq_true, decide_eq_true_eq] at hp
    exact ⟨hp.1, hp.2⟩
  · simp only [CalculateCommission, getAgentCommissionRate, tieredAgentExample, exampleTiers,
      bind, Except.bind]
    norm_num [getTierForAmount, tierContains, List.find?, pure, Except.pure]

/-- Witness for C2 applying the first-match characterization at the
example tiers and subtotal 3500. -/
theorem tier_selection_closed_first_match_witness :
    (⟨1000, 5000, 15 / 2⟩ : CommissionTier) ∈ exampleTiers ∧
    (1000 : ℚ) ≤ 3500 ∧ ((5000 : ℚ) = 0 ∨ (3500 : ℚ) ≤ 5000) :=
  tier_selection_closed_first_match.2.2.1 exampleTiers 3500 ⟨1000, 5000, 15 / 2⟩ rfl

/-- Configuration actually produced by getAgentCommissionRate for an
active agent: the loaded tier list and the base rate with the team boost
folded in. -/
theorem getAgentCommissionRate_active (agent : AgentRow) (h : agent.isActive = true) :
    getAgentCommissionRate agent =
      .ok { baseRate := agent.baseRate + teamBoostContribution agent,
            tierEnabled := agent.tierEnabled,
            tierRates := loadedTierRates agent } := by
  unfold getAgentCommissionRate teamBoostContribution loadedTierRates
  cases hb : agent.teamBoost with
  | none => simp [h]
  | some boost =>
    by_cases hb0 : boost > 0
    · simp [h, hb0]
    · simp [h, hb0]

/-- C1 counterexample: an active agent with base rate 5, a team boost of
2, no volume tiers and gold ordinal tier: the code applies rate 7 (base
plus boost only), while the rate claimed by C1 is 9 (base plus boost
plus the gold 2-point ordinal bonus). With volume tiers the gap is
wider: the code applies the bare tier rate without boost or bonus. -/
theorem calculator_claimed_rate_cex :
    (CalculateCommission boostAgentExample [] []
        { orderSubtotal := 1000, productIDs := [], categoryIDs := [] }).map
      CommissionCalculationResult.commissionRate = .ok 7 ∧
    specClaimedAppliedRate none boostAgentExample.baseRate 2 .gold = 9 ∧
    ((7 : ℚ) ≠ 9) := by
  refine ⟨?_, ?_, by norm_num⟩
  · simp only [CalculateCommission, getAgentCommissionRate, boostAgentExample, bind, Except.bind]
    norm_num [getTierForAmount, tierContains, List.find?, Except.map, pure, Except.pure]
  · norm_num [specClaimedAppliedRate, AgentTier.bonusPercentage, boostAgentExample]

/-- C1 amended: for an active agent the applied commission rate equals
the matched volume-tier rate when a tier matches the subtotal (the team
boost is NOT added on top of a matched tier rate), and otherwise the
agent base rate plus the team boost when one is present and positive; the
agent tier-ordinal bonus (bronze/silver/gold/platinum) is never applied
by CalculateCommission. -/
theorem calculator_applied_rate (agent : AgentRow)
    (productTable categoryTable : List BonusRateRow) (req : CommissionCalculationRequest)
    (h : agent.isActive = true) :
    (∀ t : CommissionTier,
      getTierForAmount (loadedTierRates agent) req.orderSubtotal = some t →
        (CalculateCommission agent productTable categoryTable req).map
          CommissionCalculationResult.commissionRate = .ok t.rate) ∧
    (getTierForAmount (loadedTierRates agent) req.orderSubtotal = none →
        (CalculateCommission agent productTable categoryTable req).map
          CommissionCalculationResult.commissionRate =
        .ok (agent.baseRate + teamBoostContribution agent)) := by
  have hcfg := getAgentCommissionRate_active agent h
  constructor
  · intro t ht
    simp [CalculateCommission, hcfg, bind, Except.bind, ht, Except.map, pure, Except.pure]
  · intro ht
    simp [CalculateCommission, hcfg, bind, Except.bind, ht, Except.map, pure, Except.pure]

/-- Witness for C1 applying the amended theorem to the boosted agent
(no tier matched) and to the tiered agent (tier matched). -/
theorem calculator_applied_rate_witness :
    ((CalculateCommission boostAgentExample [] []
        { orderSubtotal := 1000, productIDs := [], categoryIDs := [] }).map
      CommissionCalculationResult.commissionRate =
        .ok (boostAgentExample.baseRate + teamBoostContribution boostAgentExample)) ∧
    ((CalculateCommission tieredAgentExample [] []
        { orderSubtotal := 3500, productIDs := [], categoryIDs := [] }).map
      CommissionCalculationResult.commissionRate = .ok (15 / 2)) :=
  ⟨(calculator_applied_rate boostAgentExample [] []
      { orderSubtotal := 1000, productIDs := [], categoryIDs := [] } rfl).2 rfl,
   (calculator_applied_rate tieredAgentExample [] []
      { orderSubtotal := 3500, productIDs := [], categoryIDs := [] } rfl).1
      ⟨1000, 5000, 15 / 2⟩ rfl⟩

/-- Folding addition of item amounts equals the sum of the mapped
amounts. -/
theorem foldl_amount_eq_sum (l : List PayoutItem) (a : ℚ) :
    l.foldl (fun acc item => acc + item.amount) a = a + (l.map PayoutItem.amount).sum := by
  induction l generalizing a with
  | nil => simp
  | cons x xs ih => simp [ih, add_assoc]

/-- C5 counterexample: constructing with an empty item list together
with a zero agent ID fails with the agent-ID error, not with the
NoCommissions error. -/
theorem newPayout_empty_error_cex :
    NewPayout { id := 1, agentID := 0, period := "", items := [] } 0 =
      .error .agentIDRequired ∧
    PayoutError.agentIDRequired ≠ PayoutError.noCommissions := by
  refine ⟨rfl, by simp⟩

/-- C5 amended: with a non-zero agent ID, a non-empty period and a
non-empty item list, NewPayout succeeds and the amount is the sum of the
item amounts; with a non-zero agent ID and non-empty period an empty
item list fails with NoCommissions; and every construction from an empty
item list fails (the error being the agent-ID or period error when those
validations, which run first, fail). -/
theorem newPayout_amount_and_errors (params : PayoutParams) (now : Nat) :
    (params.agentID ≠ 0 → params.period ≠ "" → params.items ≠ [] →
      NewPayout params now =
        .ok { id := params.id, agentID := params.agentID,
              amount := (params.items.map PayoutItem.amount).sum,
              period := params.period, items := params.items, status := .pending,
              paidAt := none, createdAt := now, updatedAt := now }) ∧
    (params.agentID ≠ 0 → params.period ≠ "" → params.items = [] →
      NewPayout params now = .error .noCommissions) ∧
    (params.items = [] → ∀ q : Payout, NewPayout params now ≠ .ok q) := by
  refine ⟨fun ha hp hi => ?_, fun ha hp hi => ?_, fun hi q => ?_⟩
  · unfold NewPayout
    rw [if_neg ha, if_neg hp, if_neg (by simp [List.isEmpty_iff, hi])]
    rw [foldl_amount_eq_sum params.items 0, zero_add]
  · unfold NewPayout
    rw [if_neg ha, if_neg hp, if_pos (by simp [List.isEmpty_iff, hi])]
  · unfold NewPayout
    by_cases ha : params.agentID = 0
    · rw [if_pos ha]; simp
    · rw [if_neg ha]
      by_cases hp : params.period = ""
      · rw [if_pos hp]; simp
      · rw [if_neg hp, if_pos (by simp [List.isEmpty_iff, hi])]; simp

/-- Payout parameters with three items of amounts 50, 75 and 25. -/
def payoutParamsThree : PayoutParams :=
  { id := 1, agentID := 7, period := "2024-01",
    items := [⟨1, "o1", 50⟩, ⟨2, "o2", 75⟩, ⟨3, "o3", 25⟩] }

/-- Payout parameters with a valid agent and period but no items. -/
def payoutParamsEmpty : PayoutParams :=
  { id := 2, agentID := 7, period := "2024-01", items := [] }

/-- Witness for C5: three commissions of 50, 75 and 25 yield a payout
whose amount is their sum, and an empty list with valid agent and period
fails with NoCommissions. -/
theorem newPayout_amount_and_errors_witness :
    NewPayout payoutParamsThree 0 =
      .ok { id := 1, agentID := 7,
            amount := (payoutParamsThree.items.map PayoutItem.amount).sum,
            period := "2024-01", items := payoutParamsThree.items, status := .pending,
            paidAt := none, createdAt := 0, updatedAt := 0 } ∧
    NewPayout payoutParamsEmpty 0 = .error .noCommissions :=
  ⟨(newPayout_amount_and_errors payoutParamsThree 0).1
      (by simp [payoutParamsThree]) (by simp [payoutParamsThree]) (by simp [payoutParamsThree]),
   (newPayout_amount_and_errors payoutParamsEmpty 0).2.1
      (by simp [payoutParamsEmpty]) (by simp [payoutParamsEmpty]) rfl⟩

/-- One lifecycle step never changes the identity and monetary fields of
a commission, whether it succeeds or fails. -/
theorem applyAction_frame (c : Commission) (act : CommissionAction) (now : Nat) :
    (c.applyAction act now).amount = c.amount ∧
    (c.applyAction act now).rate = c.rate ∧
    (c.applyAction act now).orderTotal = c.orderTotal ∧
    (c.applyAction act now).agentID = c.agentID ∧
    (c.applyAction act now).orderID = c.orderID ∧
    (c.applyAction act now).id = c.id ∧
    (c.applyAction act now).createdAt = c.createdAt := by
  cases act <;>
    simp only [Commission.applyAction, Commission.approve, Commission.markAsPaid,
      Commission.cancel] <;>
    split <;> simp

/-- C6: across any sequence of Approve, MarkAsPaid and Cancel calls,
successful or failing, the amount, rate, orderTotal, agentID and orderID
of a commission (and its id and createdAt) keep their creation-time
values; only status, updatedAt and the event list ever change, so later
changes to the agent rate or tier never alter a commission amount. -/
theorem commission_fields_frame :
    ∀ (c : Commission) (acts : List (CommissionAction × Nat)),
      (c.applyActions acts).amount = c.amount ∧
      (c.applyActions acts).rate = c.rate ∧
      (c.applyActions acts).orderTotal = c.orderTotal ∧
      (c.applyActions acts).agentID = c.agentID ∧
      (c.applyActions acts).orderID = c.orderID ∧
      (c.applyActions acts).id = c.id ∧
      (c.applyActions acts).createdAt = c.createdAt := by
  intro c acts
  induction acts generalizing c with
  | nil => exact ⟨rfl, rfl, rfl, rfl, rfl, rfl, rfl⟩
  | cons a tl ih =>
    have hrec : Commission.applyActions c (a :: tl) =
        Commission.applyActions (c.applyAction a.1 a.2) tl := rfl
    rw [hrec]
    obtain ⟨h1, h2, h3, h4, h5, h6, h7⟩ := ih (c.applyAction a.1 a.2)
    obtain ⟨g1, g2, g3, g4, g5, g6, g7⟩ := applyAction_frame c a.1 a.2
    exact ⟨h1.trans g1, h2.trans g2, h3.trans g3, h4.trans g4, h5.trans g5,
      h6.trans g6, h7.trans g7⟩

/-- An out-of-range rate makes NewCommissionRate fail. -/
theorem newCommissionRate_out_of_range (v : ℚ) (h : v < 0 ∨ 100 < v) :
    NewCommissionRate v = .error .invalidRange := by
  unfold NewCommissionRate
  rw [if_pos h]

/-- Commission parameters carrying the out-of-range rate 150. -/
def commissionParams150 : CommissionParams :=
  { id := 1, agentID := 7, orderID := "ord-1", orderTotal := 1000, rate := 150, amount := 0 }

/-- Agent parameters carrying the out-of-range rate 150. -/
def agentParams150 : AgentParams :=
  { id := 1, code := "", name := "A", email := "a@b.c", phone := "",
    commissionRate := 150, tier := "", status := "", teamID := none }

/-- C9 counterexample: NewAgent with the out-of-range rate 150 does not
reject: it silently substitutes the default rate 10 and creates the
agent. -/
theorem newAgent_out_of_range_rate_cex :
    NewAgent agentParams150 0 =
      .ok { id := 1, code := "AGT0001", name := "A", email := "a@b.c", phone := "",
            commissionRate := ⟨10⟩, tier := .bronze, status := .active, totalEarned := 0,
            teamID := none, createdAt := 0, updatedAt := 0,
            events := [.created 1 "AGT0001" "A" 0] } ∧
    ((150 : ℚ) < 0 ∨ 100 < (150 : ℚ)) := by
  refine ⟨rfl, Or.inr (by norm_num)⟩

/-- C9 amended: an out-of-range rate is rejected with the invalid-range
error and no state change by the agent rate update and by commission
creation, but agent creation does not validate it: with valid name and
email, NewAgent silently replaces an out-of-range rate by the default
rate 10 and still creates the agent. -/
theorem rate_validation_by_operation :
    (∀ (a : Agent) (v : ℚ) (now : Nat), v < 0 ∨ 100 < v →
      a.setCommissionRate v now = (.error .invalidRange, a)) ∧
    (∀ (params : CommissionParams) (now : Nat), params.rate < 0 ∨ 100 < params.rate →
      ∀ c : Commission, NewCommission params now ≠ .ok c) ∧
    (∀ (params : AgentParams) (now : Nat), params.name ≠ "" → params.email ≠ "" →
      params.commissionRate < 0 ∨ 100 < params.commissionRate →
      ∃ a : Agent, NewAgent params now = .ok a ∧
        a.commissionRate = defaultCommissionRate) := by
  refine ⟨fun a v now h => ?_, fun params now h c => ?_, fun params now hn he h => ?_⟩
  · unfold Agent.setCommissionRate
    rw [newCommissionRate_out_of_range v h]
  · unfold NewCommission
    by_cases h1 : params.agentID = 0
    · rw [if_pos h1]; simp
    · rw [if_neg h1]
      by_cases h2 : params.orderID = ""
      · rw [if_pos h2]; simp
      · rw [if_neg h2]
        by_cases h3 : params.orderTotal ≤ 0
        · rw [if_pos h3]; simp
        · rw [if_neg h3, newCommissionRate_out_of_range params.rate h]
          simp
  · unfold NewAgent
    rw [if_neg hn, if_neg he]
    refine ⟨_, rfl, ?_⟩
    show (if params.commissionRate > 0 then _ else _) = defaultCommissionRate
    by_cases hpos : params.commissionRate > 0
    · rw [if_pos hpos, newCommissionRate_out_of_range params.commissionRate h]
    · rw [if_neg hpos]

/-- Witness for C9 at the rate 150 on the concrete example agent,
commission parameters and agent parameters. -/
theorem rate_validation_by_operation_witness :
    exampleAgent.setCommissionRate 150 1 = (.error .invalidRange, exampleAgent) ∧
    (NewCommission commissionParams150 0 ≠ .ok exampleCommission) ∧
    (∃ a : Agent, NewAgent agentParams150 0 = .ok a ∧
      a.commissionRate = defaultCommissionRate) :=
  ⟨rate_validation_by_operation.1 exampleAgent 150 1 (Or.inr (by norm_num)),
   rate_validation_by_operation.2.1 commissionParams150 0
      (Or.inr (by norm_num [commissionParams150])) exampleCommission,
   rate_validation_by_operation.2.2 agentParams150 0
      (by simp [agentParams150]) (by simp [agentParams150])
      (Or.inr (by norm_num [agentParams150]))⟩

/-- C7 (code bug): the performance loop for the current date 2026-03-30
produces the month list with March present twice and February absent,
because Go AddDate normalizes 2026-02-30 forward into March; the claimed
trailing-12-months series differs, while a mid-month current date such
as 2026-02-15 agrees with it. The list always has 12 entries. -/
theorem performance_months_skip_february :
    performanceMonths 2026 3 30 =
      [(2025, 4), (2025, 5), (2025, 6), (2025, 7), (2025, 8), (2025, 9),
       (2025, 10), (2025, 11), (2025, 12), (2026, 1), (2026, 3), (2026, 3)] ∧
    trailingMonths 2026 3 =
      [(2025, 4), (2025, 5), (2025, 6), (2025, 7), (2025, 8), (2025, 9),
       (2025, 10), (2025, 11), (2025, 12), (2026, 1), (2026, 2), (2026, 3)] ∧
    performanceMonths 2026 3 30 ≠ trailingMonths 2026 3 ∧
    ((2026, 2) ∉ performanceMonths 2026 3 30) ∧
    performanceMonths 2026 2 15 = trailingMonths 2026 2 ∧
    (performanceMonths 2026 3 30).length = 12 := by
  refine ⟨by decide, by decide, by decide, by decide, by decide, by decide⟩
